import Mathlib

set_option maxRecDepth 8000

/-!
Shallow embedding of the `intel8080` emulator core (src/intel8080.hpp and
src/intel8080.cpp) in Lean 4, together with theorems checking the
natural-language specification against the code.

Modelling conventions:

* `byte` values are `Nat` kept below 256 by reducing modulo 256 at every
  write, mirroring `std::uint8_t` arithmetic; 16-bit quantities are `Nat`
  reduced modulo 65536 at every write, mirroring `std::uint16_t`.
* The register pairs are the C++ `union reg { uint8_t pair[2]; uint16_t full; }`.
  The implementation defines `reg::high()` as `pair[0]` and `reg::low()` as
  `pair[1]`, and the emulator is built and run on a little-endian host
  (the drivers in the repository target an ordinary desktop), so
  `full = pair[0] + 256 * pair[1]`.  We store the two bytes of each pair as
  separate fields (named after the 8-bit accessors `A() B() C() ...`, i.e.
  `a = _PSW.pair[0]`, `f = _PSW.pair[1]`, and so on) and derive the 16-bit
  views `PSW() BC() DE() HL()` from them.
* RAM is a function `Nat → Nat`; `readRam`/`writeRam` reduce modulo 256 like
  the `std::uint8_t` cells.  The 16-bit accesses `get16`/`atSP` in the C++
  code go through a `*(std::uint16_t*)(ram + i)` pointer cast, i.e. a
  little-endian two-byte access at `i` and `i + 1`, where the second index
  comes from pointer arithmetic and therefore does not wrap at 0x10000;
  the model indexes the memory function the same way.
* The port-output callback only produces a host-side effect, so the model
  keeps no output state; the port-input callback is a field `portIn`.
* All `cpu` objects in this repository are namespace-scope (static storage
  duration) C++ objects, so their members are zero-initialized before the
  constructor body runs; `cpu.construct` models that zero state followed by
  the member initializers (`SP = 0`, `PC = 0`, `interruptsEnabled = false`,
  `interruptPending = false`) and the constructor body `setFlag(flag(1), true)`.
-/

namespace intel8080

/-- lowBitsOf from intel8080.hpp: the k lowest bits of n (`n % (1 << k)`). -/
def lowBitsOf (n k : Nat) : Nat := n % 2 ^ k

/-- highBitsOf instantiated at T = uint8: `n / (1 << (8 - k))`. -/
def highBitsOf8 (n k : Nat) : Nat := n / 2 ^ (8 - k)

/-- highBitsOf instantiated at T = uint16: `n / (1 << (16 - k))`. -/
def highBitsOf16 (n k : Nat) : Nat := n / 2 ^ (16 - k)

/-- twosComp from intel8080.hpp at T = uint8: `~n + 1` with uint8 wrap-around. -/
def twosComp (n : Nat) : Nat := (255 - n % 256 + 1) % 256

/-- intel8080::swapBytes: `highBitsOf(n, 8) + lowBitsOf(n, 8) * (1 << 8)` on a uint16. -/
def swapBytes (n : Nat) : Nat := highBitsOf16 n 8 + lowBitsOf n 8 * 256

/-- Read one RAM cell: cells are uint8, so the stored value is below 256. -/
def readRam (m : Nat → Nat) (addr : Nat) : Nat := m addr % 256

/-- Write one RAM cell, truncating the stored value to uint8. -/
def writeRam (m : Nat → Nat) (addr v : Nat) : Nat → Nat :=
  fun x => if x = addr then v % 256 else m x

/-- `__builtin_parity` of a byte value, negated as in `updateFlags`
(`setFlag(parity, not __builtin_parity(result))`): true when the number of
set bits among bits 0..7 is even.  All call sites pass values below 256. -/
def evenParity (n : Nat) : Bool :=
  (n % 2 + n / 2 % 2 + n / 4 % 2 + n / 8 % 2 +
   n / 16 % 2 + n / 32 % 2 + n / 64 % 2 + n / 128 % 2) % 2 == 0

/-- Flag-byte update, the body of `cpu::setFlag` as a function of the flag
byte: `flags() |= (1 << f)` or `flags() &= ~(1 << f)` (uint8 truncation of
the complement mask). -/
def setFlagF (fl : Nat) (condition : Bool) (F : Nat) : Nat :=
  if condition then F ||| 2 ^ fl else F &&& (255 - 2 ^ fl)

/-- The flag fix-up executed at the end of `cpu::pop`:
`setFlag(5, 0); setFlag(3, 0); setFlag(1, 1)`. -/
def fixFlags (F : Nat) : Nat :=
  setFlagF 1 true (setFlagF 3 false (setFlagF 5 false F))

/-- The state of `intel8080::cpu`.  Register-byte fields are named after the
8-bit accessors (`a = A() = _PSW.pair[0]`, `f = flags() = _PSW.pair[1]`,
`b = B() = _BC.pair[0]`, `c = C() = _BC.pair[1]`, etc.); `sp`/`pc` are the
uint16 members `SP`/`PC`; `ram` is the borrowed memory; `portIn` is
`portInputHandler` (the output handler has no CPU-visible state). -/
structure cpu where
  a : Nat
  f : Nat
  b : Nat
  c : Nat
  d : Nat
  e : Nat
  h : Nat
  l : Nat
  sp : Nat
  pc : Nat
  ram : Nat → Nat
  portIn : Nat → Nat
  interruptsEnabled : Bool
  interruptPending : Bool
  interruptVector : Nat
  halted : Bool

/-- PSW(): `_PSW.full = pair[0] + 256 * pair[1]` = A + 256 * flags. -/
def cpu.PSW (s : cpu) : Nat := s.a + 256 * s.f

/-- BC(): `_BC.full` = B + 256 * C. -/
def cpu.BC (s : cpu) : Nat := s.b + 256 * s.c

/-- DE(): `_DE.full` = D + 256 * E. -/
def cpu.DE (s : cpu) : Nat := s.d + 256 * s.e

/-- HL(): `_HL.full` = H + 256 * L. -/
def cpu.HL (s : cpu) : Nat := s.h + 256 * s.l

/-- Store a uint16 value into the BC pair (`BC() = v`): pair[0] gets the low
byte of the truncated value, pair[1] the high byte. -/
def cpu.setBC (v : Nat) (s : cpu) : cpu := { s with b := v % 256, c := v / 256 % 256 }

/-- Store a uint16 value into the DE pair (`DE() = v`). -/
def cpu.setDE (v : Nat) (s : cpu) : cpu := { s with d := v % 256, e := v / 256 % 256 }

/-- Store a uint16 value into the HL pair (`HL() = v`). -/
def cpu.setHL (v : Nat) (s : cpu) : cpu := { s with h := v % 256, l := v / 256 % 256 }

/-- cpu::getFlag: `(flags() >> f) % 2`. -/
def cpu.getFlag (s : cpu) (fl : Nat) : Nat := s.f / 2 ^ fl % 2

/-- cpu::setFlag. -/
def cpu.setFlag (fl : Nat) (condition : Bool) (s : cpu) : cpu :=
  { s with f := setFlagF fl condition s.f }

/-- cpu::updateFlags: sign from the top bit of the (byte) result, zero from
`result == 0`, parity from `not __builtin_parity(result)`. -/
def cpu.updateFlags (result : Nat) (s : cpu) : cpu :=
  cpu.setFlag 2 (evenParity result)
    (cpu.setFlag 6 (result == 0)
      (cpu.setFlag 7 (result / 128 % 2 == 1) s))

/-- cpu::updateCarryFlag at T = uint8: `setFlag(carry, b > 0xFF - a)`. -/
def cpu.updateCarryFlag (x y : Nat) (s : cpu) : cpu :=
  cpu.setFlag 0 (decide (255 - x < y)) s

/-- cpu::updateAuxCarryFlag: `setFlag(auxCarry, lowBitsOf(b,4) + lowBitsOf(a,4) > 0b1111)`. -/
def cpu.updateAuxCarryFlag (x y : Nat) (s : cpu) : cpu :=
  cpu.setFlag 4 (decide (15 < lowBitsOf y 4 + lowBitsOf x 4)) s

/-- cpu::add: `added = r8 (+1 if withCarry and carry flag)`, with uint8
wrap-around of `++added`; then carry and aux-carry from (A, added), then
`updateFlags(A() += added)`. -/
def cpu.add (r8 : Nat) (withCarry : Bool) (s : cpu) : cpu :=
  let added := if withCarry && (s.getFlag 0 == 1) then (r8 + 1) % 256 else r8
  let s1 := cpu.updateCarryFlag s.a added s
  let s2 := cpu.updateAuxCarryFlag s.a added s1
  let newA := (s.a + added) % 256
  { cpu.updateFlags newA s2 with a := newA }

/-- cpu::sub: `add(twosComp(r8), withBorrow)`. -/
def cpu.sub (r8 : Nat) (withBorrow : Bool) (s : cpu) : cpu :=
  cpu.add (twosComp r8) withBorrow s

/-- cpu::cmp: save A, `sub(r8)`, invert the carry flag, restore A. -/
def cpu.cmp (r8 : Nat) (s : cpu) : cpu :=
  let s1 := cpu.sub r8 false s
  { cpu.setFlag 0 (s1.getFlag 0 == 0) s1 with a := s.a }

/-- cpu::logicAnd: `updateFlags(A() &= r8); setFlag(carry, false)`. -/
def cpu.logicAnd (r8 : Nat) (s : cpu) : cpu :=
  let newA := s.a &&& r8
  cpu.setFlag 0 false (cpu.updateFlags newA { s with a := newA })

/-- cpu::logicOr: `updateFlags(A() |= r8); setFlag(carry, false)`. -/
def cpu.logicOr (r8 : Nat) (s : cpu) : cpu :=
  let newA := s.a ||| r8
  cpu.setFlag 0 false (cpu.updateFlags newA { s with a := newA })

/-- cpu::logicXor: `updateFlags(A() ^= r8); setFlag(carry, false)`. -/
def cpu.logicXor (r8 : Nat) (s : cpu) : cpu :=
  let newA := s.a ^^^ r8
  cpu.setFlag 0 false (cpu.updateFlags newA { s with a := newA })

/-- The flag effect of cpu::inr on old register value r:
`setFlag(auxCarry, lowBitsOf(r8,4) == 0b1111); updateFlags(++r8)`.
The register write itself is done at each dispatch site. -/
def cpu.inrFlags (r : Nat) (s : cpu) : cpu :=
  cpu.updateFlags ((r + 1) % 256) (cpu.setFlag 4 (lowBitsOf r 4 == 15) s)

/-- The flag effect of cpu::dcr on old register value r:
`setFlag(auxCarry, lowBitsOf(r8,4) == 0b0000); updateFlags(--r8)`. -/
def cpu.dcrFlags (r : Nat) (s : cpu) : cpu :=
  cpu.updateFlags ((255 + r) % 256) (cpu.setFlag 4 (lowBitsOf r 4 == 0) s)

/-- cpu::dad: `setFlag(carry, r16 > 0xFFFF - HL()); HL() += r16`. -/
def cpu.dad (r16 : Nat) (s : cpu) : cpu :=
  cpu.setHL ((s.HL + r16) % 65536) (cpu.setFlag 0 (decide (65535 - s.HL < r16)) s)

/-- The value returned by cpu::get16 at the current PC: a little-endian
uint16 read `*(uint16_t*)(ram + PC)`.  The second index `PC + 1` is pointer
arithmetic and does not wrap at 0x10000.  The `PC += 2` of get16 is applied
at each call site. -/
def cpu.get16 (s : cpu) : Nat := readRam s.ram s.pc + 256 * readRam s.ram (s.pc + 1)

/-- The uint16 at the stack pointer, `atSP()` read as a value:
little-endian bytes at SP and SP + 1. -/
def cpu.atSPval (s : cpu) : Nat := readRam s.ram s.sp + 256 * readRam s.ram (s.sp + 1)

/-- cpu::push: `SP -= 2; atSP() = swapBytes(r16)` (little-endian store of the
byte-swapped value at SP, SP + 1). -/
def cpu.push (r16 : Nat) (s : cpu) : cpu :=
  let sp1 := (65534 + s.sp) % 65536
  let w := swapBytes r16
  { s with sp := sp1, ram := writeRam (writeRam s.ram sp1 w) (sp1 + 1) (w / 256) }

/-- The value delivered by cpu::pop: `swapBytes(atSP())`. -/
def cpu.popVal (s : cpu) : Nat := swapBytes s.atSPval

/-- cpu::rst: `push(PC); PC = 8 * which`. -/
def cpu.rst (which : Nat) (s : cpu) : cpu :=
  { cpu.push s.pc s with pc := 8 * which }

/-- cpu::jmp: `if (condition) PC = get16();` — note that when the condition
is false, get16 is never called and PC is not advanced past the address. -/
def cpu.jmp (condition : Bool) (s : cpu) : cpu :=
  if condition then { s with pc := s.get16 } else s

/-- cpu::ret: `if (condition) pop(PC);` — pop assigns `swapBytes(atSP())`,
adds 2 to SP, and then resets flag bits 5, 3 and 1. -/
def cpu.ret (condition : Bool) (s : cpu) : cpu :=
  if condition then
    { s with pc := s.popVal, sp := (s.sp + 2) % 65536, f := fixFlags s.f }
  else s

/-- cpu::call: `if (condition) { push(PC); PC = get16(); }` — the address is
read after the push (from the possibly-updated RAM); as in `jmp`, nothing at
all happens when the condition is false. -/
def cpu.call (condition : Bool) (s : cpu) : cpu :=
  if condition then
    let s1 := cpu.push s.pc s
    { s1 with pc := s1.get16 }
  else s

/-- cpu::daa (opcode 0x27): low-nibble adjust guarded by aux-carry or
`lowBitsOf(A,4) > 9`, then high-nibble adjust guarded by carry or
`highBitsOf(A,4) > 9` (on the already-adjusted A), then `updateFlags(A())`. -/
def cpu.daa (s : cpu) : cpu :=
  let s1 :=
    if s.getFlag 4 == 1 || decide (9 < lowBitsOf s.a 4) then
      cpu.setFlag 4 true { s with a := (s.a + 6) % 256 }
    else s
  let s2 :=
    if s1.getFlag 0 == 1 || decide (9 < highBitsOf8 s1.a 4) then
      cpu.setFlag 0 true { s1 with a := (s1.a + 96) % 256 }
    else s1
  cpu.updateFlags s2.a s2

set_option maxHeartbeats 4000000 in
/-- cpu::exec: the 256-way opcode switch.  The dispatch is on the two hex
digits of the opcode, so the C++ `case 0xHL:` is the arm `| 0xH, 0xL` here,
one arm per case label.  The PC seen here already points past the opcode
byte (the caller fetched it); `get8`/`get16` operand fetches are inlined as
a RAM read at PC together with the corresponding PC bump.  Opcode 0xCB has
no case in the source switch and falls through with no effect, which is
what the default arm models. -/
def cpu.exec (instr : Nat) (s : cpu) : cpu :=
  match instr / 16, instr % 16 with
  | 0x0, 0x0 | 0x0, 0x8 | 0x1, 0x0 | 0x1, 0x8 | 0x2, 0x0 | 0x2, 0x8 | 0x3, 0x0 | 0x3, 0x8 => s
  | 0x0, 0x1 => cpu.setBC s.get16 { s with pc := (s.pc + 2) % 65536 }
  | 0x1, 0x1 => cpu.setDE s.get16 { s with pc := (s.pc + 2) % 65536 }
  | 0x2, 0x1 => cpu.setHL s.get16 { s with pc := (s.pc + 2) % 65536 }
  | 0x3, 0x1 => { s with sp := s.get16, pc := (s.pc + 2) % 65536 }
  | 0x0, 0x2 => { s with ram := writeRam s.ram s.BC s.a }
  | 0x1, 0x2 => { s with ram := writeRam s.ram s.DE s.a }
  | 0x0, 0xa => { s with a := readRam s.ram s.BC }
  | 0x1, 0xa => { s with a := readRam s.ram s.DE }
  | 0x2, 0x2 => { s with ram := writeRam s.ram s.get16 s.HL, pc := (s.pc + 2) % 65536 }
  | 0x2, 0xa => cpu.setHL (readRam s.ram s.get16) { s with pc := (s.pc + 2) % 65536 }
  | 0x3, 0x2 => { s with ram := writeRam s.ram s.get16 s.a, pc := (s.pc + 2) % 65536 }
  | 0x3, 0xa => { s with a := readRam s.ram s.get16, pc := (s.pc + 2) % 65536 }
  | 0x0, 0x3 => cpu.setBC ((s.BC + 1) % 65536) s
  | 0x1, 0x3 => cpu.setDE ((s.DE + 1) % 65536) s
  | 0x2, 0x3 => cpu.setHL ((s.HL + 1) % 65536) s
  | 0x3, 0x3 => { s with sp := (s.sp + 1) % 65536 }
  | 0x0, 0xb => cpu.setBC ((65535 + s.BC) % 65536) s
  | 0x1, 0xb => cpu.setDE ((65535 + s.DE) % 65536) s
  | 0x2, 0xb => cpu.setHL ((65535 + s.HL) % 65536) s
  | 0x3, 0xb => { s with sp := (65535 + s.sp) % 65536 }
  | 0x0, 0x4 => { cpu.inrFlags s.b s with b := (s.b + 1) % 256 }
  | 0x0, 0xc => { cpu.inrFlags s.c s with c := (s.c + 1) % 256 }
  | 0x1, 0x4 => { cpu.inrFlags s.d s with d := (s.d + 1) % 256 }
  | 0x1, 0xc => { cpu.inrFlags s.e s with e := (s.e + 1) % 256 }
  | 0x2, 0x4 => { cpu.inrFlags s.h s with h := (s.h + 1) % 256 }
  | 0x2, 0xc => { cpu.inrFlags s.l s with l := (s.l + 1) % 256 }
  | 0x3, 0x4 => { cpu.inrFlags (readRam s.ram s.HL) s with
              ram := writeRam s.ram s.HL (readRam s.ram s.HL + 1) }
  | 0x3, 0xc => { cpu.inrFlags s.a s with a := (s.a + 1) % 256 }
  | 0x0, 0x5 => { cpu.dcrFlags s.b s with b := (255 + s.b) % 256 }
  | 0x0, 0xd => { cpu.dcrFlags s.c s with c := (255 + s.c) % 256 }
  | 0x1, 0x5 => { cpu.dcrFlags s.d s with d := (255 + s.d) % 256 }
  | 0x1, 0xd => { cpu.dcrFlags s.e s with e := (255 + s.e) % 256 }
  | 0x2, 0x5 => { cpu.dcrFlags s.h s with h := (255 + s.h) % 256 }
  | 0x2, 0xd => { cpu.dcrFlags s.l s with l := (255 + s.l) % 256 }
  | 0x3, 0x5 => { cpu.dcrFlags (readRam s.ram s.HL) s with
              ram := writeRam s.ram s.HL (255 + readRam s.ram s.HL) }
  | 0x3, 0xd => { cpu.dcrFlags s.a s with a := (255 + s.a) % 256 }
  | 0x0, 0x6 => { s with b := readRam s.ram s.pc, pc := (s.pc + 1) % 65536 }
  | 0x0, 0xe => { s with c := readRam s.ram s.pc, pc := (s.pc + 1) % 65536 }
  | 0x1, 0x6 => { s with d := readRam s.ram s.pc, pc := (s.pc + 1) % 65536 }
  | 0x1, 0xe => { s with e := readRam s.ram s.pc, pc := (s.pc + 1) % 65536 }
  | 0x2, 0x6 => { s with h := readRam s.ram s.pc, pc := (s.pc + 1) % 65536 }
  | 0x2, 0xe => { s with l := readRam s.ram s.pc, pc := (s.pc + 1) % 65536 }
  | 0x3, 0x6 => { s with ram := writeRam s.ram s.HL (readRam s.ram s.pc), pc := (s.pc + 1) % 65536 }
  | 0x3, 0xe => { s with a := readRam s.ram s.pc, pc := (s.pc + 1) % 65536 }
  | 0x0, 0x7 =>
    let t := highBitsOf8 s.a 1
    { cpu.setFlag 0 (t != 0) s with a := (s.a * 2 % 256 + t) % 256 }
  | 0x0, 0xf =>
    let t := lowBitsOf s.a 1
    { cpu.setFlag 0 (t != 0) s with a := (s.a / 2 + 128 * t) % 256 }
  | 0x1, 0x7 => { cpu.setFlag 0 (highBitsOf8 s.a 1 != 0) s with a := s.a * 2 % 256 }
  | 0x1, 0xf => { cpu.setFlag 0 (lowBitsOf s.a 1 != 0) s with a := s.a / 2 }
  | 0x2, 0x7 => cpu.daa s
  | 0x3, 0x7 => cpu.setFlag 0 true s
  | 0x2, 0xf => { s with a := 255 - s.a % 256 }
  | 0x3, 0xf => cpu.setFlag 0 (s.getFlag 0 == 0) s
  | 0x0, 0x9 => cpu.dad s.BC s
  | 0x1, 0x9 => cpu.dad s.DE s
  | 0x2, 0x9 => cpu.dad s.HL s
  | 0x3, 0x9 => cpu.dad s.sp s
  | 0x4, 0x0 => s
  | 0x4, 0x1 => { s with b := s.c }
  | 0x4, 0x2 => { s with b := s.d }
  | 0x4, 0x3 => { s with b := s.e }
  | 0x4, 0x4 => { s with b := s.h }
  | 0x4, 0x5 => { s with b := s.l }
  | 0x4, 0x6 => { s with b := readRam s.ram s.HL }
  | 0x4, 0x7 => { s with b := s.a }
  | 0x4, 0x8 => { s with c := s.b }
  | 0x4, 0x9 => s
  | 0x4, 0xa => { s with c := s.d }
  | 0x4, 0xb => { s with c := s.e }
  | 0x4, 0xc => { s with c := s.h }
  | 0x4, 0xd => { s with c := s.l }
  | 0x4, 0xe => { s with c := readRam s.ram s.HL }
  | 0x4, 0xf => { s with c := s.a }
  | 0x5, 0x0 => { s with d := s.b }
  | 0x5, 0x1 => { s with d := s.c }
  | 0x5, 0x2 => s
  | 0x5, 0x3 => { s with d := s.e }
  | 0x5, 0x4 => { s with d := s.h }
  | 0x5, 0x5 => { s with d := s.l }
  | 0x5, 0x6 => { s with d := readRam s.ram s.HL }
  | 0x5, 0x7 => { s with d := s.a }
  | 0x5, 0x8 => { s with e := s.b }
  | 0x5, 0x9 => { s with e := s.c }
  | 0x5, 0xa => { s with e := s.d }
  | 0x5, 0xb => s
  | 0x5, 0xc => { s with e := s.h }
  | 0x5, 0xd => { s with e := s.l }
  | 0x5, 0xe => { s with e := readRam s.ram s.HL }
  | 0x5, 0xf => { s with e := s.a }
  | 0x6, 0x0 => { s with h := s.b }
  | 0x6, 0x1 => { s with h := s.c }
  | 0x6, 0x2 => { s with h := s.d }
  | 0x6, 0x3 => { s with h := s.e }
  | 0x6, 0x4 => s
  | 0x6, 0x5 => { s with h := s.l }
  | 0x6, 0x6 => { s with h := readRam s.ram s.HL }
  | 0x6, 0x7 => { s with h := s.a }
  | 0x6, 0x8 => { s with l := s.b }
  | 0x6, 0x9 => { s with l := s.c }
  | 0x6, 0xa => { s with l := s.d }
  | 0x6, 0xb => { s with l := s.e }
  | 0x6, 0xc => { s with l := s.h }
  | 0x6, 0xd => s
  | 0x6, 0xe => { s with l := readRam s.ram s.HL }
  | 0x6, 0xf => { s with l := s.a }
  | 0x7, 0x0 => { s with ram := writeRam s.ram s.HL s.b }
  | 0x7, 0x1 => { s with ram := writeRam s.ram s.HL s.c }
  | 0x7, 0x2 => { s with ram := writeRam s.ram s.HL s.d }
  | 0x7, 0x3 => { s with ram := writeRam s.ram s.HL s.e }
  | 0x7, 0x4 => { s with ram := writeRam s.ram s.HL s.h }
  | 0x7, 0x5 => { s with ram := writeRam s.ram s.HL s.l }
  | 0x7, 0x7 => { s with ram := writeRam s.ram s.HL s.a }
  | 0x7, 0x8 => { s with a := s.b }
  | 0x7, 0x9 => { s with a := s.c }
  | 0x7, 0xa => { s with a := s.d }
  | 0x7, 0xb => { s with a := s.e }
  | 0x7, 0xc => { s with a := s.h }
  | 0x7, 0xd => { s with a := s.l }
  | 0x7, 0xe => { s with a := readRam s.ram s.HL }
  | 0x7, 0xf => s
  | 0x7, 0x6 => { s with halted := true }
  | 0x8, 0x0 => cpu.add s.b false s
  | 0x8, 0x1 => cpu.add s.c false s
  | 0x8, 0x2 => cpu.add s.d false s
  | 0x8, 0x3 => cpu.add s.e false s
  | 0x8, 0x4 => cpu.add s.h false s
  | 0x8, 0x5 => cpu.add s.l false s
  | 0x8, 0x6 => cpu.add (readRam s.ram s.HL) false s
  | 0x8, 0x7 => cpu.add s.a false s
  | 0x8, 0x8 => cpu.add s.b true s
  | 0x8, 0x9 => cpu.add s.c true s
  | 0x8, 0xa => cpu.add s.d true s
  | 0x8, 0xb => cpu.add s.e true s
  | 0x8, 0xc => cpu.add s.h true s
  | 0x8, 0xd => cpu.add s.l true s
  | 0x8, 0xe => cpu.add (readRam s.ram s.HL) true s
  | 0x8, 0xf => cpu.add s.a true s
  | 0x9, 0x0 => cpu.sub s.b false s
  | 0x9, 0x1 => cpu.sub s.c false s
  | 0x9, 0x2 => cpu.sub s.d false s
  | 0x9, 0x3 => cpu.sub s.e false s
  | 0x9, 0x4 => cpu.sub s.h false s
  | 0x9, 0x5 => cpu.sub s.l false s
  | 0x9, 0x6 => cpu.sub (readRam s.ram s.HL) false s
  | 0x9, 0x7 => cpu.sub s.a false s
  | 0x9, 0x8 => cpu.sub s.b true s
  | 0x9, 0x9 => cpu.sub s.c true s
  | 0x9, 0xa => cpu.sub s.d true s
  | 0x9, 0xb => cpu.sub s.e true s
  | 0x9, 0xc => cpu.sub s.h true s
  | 0x9, 0xd => cpu.sub s.l true s
  | 0x9, 0xe => cpu.sub (readRam s.ram s.HL) true s
  | 0x9, 0xf => cpu.sub s.a true s
  | 0xa, 0x0 => cpu.logicAnd s.b s
  | 0xa, 0x1 => cpu.logicAnd s.c s
  | 0xa, 0x2 => cpu.logicAnd s.d s
  | 0xa, 0x3 => cpu.logicAnd s.e s
  | 0xa, 0x4 => cpu.logicAnd s.h s
  | 0xa, 0x5 => cpu.logicAnd s.l s
  | 0xa, 0x6 => cpu.logicAnd (readRam s.ram s.HL) s
  | 0xa, 0x7 => cpu.logicAnd s.a s
  | 0xa, 0x8 => cpu.logicXor s.b s
  | 0xa, 0x9 => cpu.logicXor s.c s
  | 0xa, 0xa => cpu.logicXor s.d s
  | 0xa, 0xb => cpu.logicXor s.e s
  | 0xa, 0xc => cpu.logicXor s.h s
  | 0xa, 0xd => cpu.logicXor s.l s
  | 0xa, 0xe => cpu.logicXor (readRam s.ram s.HL) s
  | 0xa, 0xf => cpu.logicXor s.a s
  | 0xb, 0x0 => cpu.logicOr s.b s
  | 0xb, 0x1 => cpu.logicOr s.c s
  | 0xb, 0x2 => cpu.logicOr s.d s
  | 0xb, 0x3 => cpu.logicOr s.e s
  | 0xb, 0x4 => cpu.logicOr s.h s
  | 0xb, 0x5 => cpu.logicOr s.l s
  | 0xb, 0x6 => cpu.logicOr (readRam s.ram s.HL) s
  | 0xb, 0x7 => cpu.logicOr s.a s
  | 0xb, 0x8 => cpu.cmp s.b s
  | 0xb, 0x9 => cpu.cmp s.c s
  | 0xb, 0xa => cpu.cmp s.d s
  | 0xb, 0xb => cpu.cmp s.e s
  | 0xb, 0xc => cpu.cmp s.h s
  | 0xb, 0xd => cpu.cmp s.l s
  | 0xb, 0xe => cpu.cmp (readRam s.ram s.HL) s
  | 0xb, 0xf => cpu.cmp s.a s
  | 0xc, 0x6 => cpu.add (readRam s.ram s.pc) false { s with pc := (s.pc + 1) % 65536 }
  | 0xc, 0xe => cpu.add (readRam s.ram s.pc) true { s with pc := (s.pc + 1) % 65536 }
  | 0xd, 0x6 => cpu.sub (readRam s.ram s.pc) false { s with pc := (s.pc + 1) % 65536 }
  | 0xd, 0xe => cpu.sub (readRam s.ram s.pc) true { s with pc := (s.pc + 1) % 65536 }
  | 0xe, 0x6 => cpu.logicAnd (readRam s.ram s.pc) { s with pc := (s.pc + 1) % 65536 }
  | 0xe, 0xe => cpu.logicXor (readRam s.ram s.pc) { s with pc := (s.pc + 1) % 65536 }
  | 0xf, 0x6 => cpu.logicOr (readRam s.ram s.pc) { s with pc := (s.pc + 1) % 65536 }
  | 0xf, 0xe => cpu.cmp (readRam s.ram s.pc) { s with pc := (s.pc + 1) % 65536 }
  | 0xe, 0xb => { s with h := s.d, l := s.e, d := s.h, e := s.l }
  | 0xe, 0x3 =>
    let t := swapBytes (readRam s.ram s.sp + 256 * readRam s.ram (s.sp + 1))
    let w := swapBytes s.HL
    cpu.setHL t { s with ram := writeRam (writeRam s.ram s.sp w) (s.sp + 1) (w / 256) }
  | 0xf, 0x9 => { s with sp := swapBytes s.HL }
  | 0xe, 0x9 => { s with pc := swapBytes s.HL }
  | 0xf, 0x3 => { s with interruptsEnabled := false }
  | 0xf, 0xb => { s with interruptsEnabled := true }
  | 0xc, 0x5 => cpu.push s.BC s
  | 0xd, 0x5 => cpu.push s.DE s
  | 0xe, 0x5 => cpu.push s.HL s
  | 0xf, 0x5 => cpu.push s.PSW s
  | 0xc, 0x1 => { cpu.setBC s.popVal s with sp := (s.sp + 2) % 65536, f := fixFlags s.f }
  | 0xd, 0x1 => { cpu.setDE s.popVal s with sp := (s.sp + 2) % 65536, f := fixFlags s.f }
  | 0xe, 0x1 => { cpu.setHL s.popVal s with sp := (s.sp + 2) % 65536, f := fixFlags s.f }
  | 0xf, 0x1 =>
    let v := s.popVal
    { s with a := v % 256, f := fixFlags (v / 256 % 256), sp := (s.sp + 2) % 65536 }
  | 0xd, 0xb => { s with a := s.portIn (readRam s.ram s.pc) % 256, pc := (s.pc + 1) % 65536 }
  | 0xd, 0x3 => { s with pc := (s.pc + 1) % 65536 }
  | 0xc, 0x7 => cpu.rst 0 s
  | 0xc, 0xf => cpu.rst 1 s
  | 0xd, 0x7 => cpu.rst 2 s
  | 0xd, 0xf => cpu.rst 3 s
  | 0xe, 0x7 => cpu.rst 4 s
  | 0xe, 0xf => cpu.rst 5 s
  | 0xf, 0x7 => cpu.rst 6 s
  | 0xf, 0xf => cpu.rst 7 s
  | 0xc, 0x2 => cpu.jmp (s.getFlag 6 == 0) s
  | 0xc, 0x3 => cpu.jmp true s
  | 0xc, 0xa => cpu.jmp (s.getFlag 6 == 1) s
  | 0xd, 0x2 => cpu.jmp (s.getFlag 0 == 0) s
  | 0xd, 0xa => cpu.jmp (s.getFlag 0 == 1) s
  | 0xe, 0x2 => cpu.jmp (s.getFlag 2 == 0) s
  | 0xe, 0xa => cpu.jmp (s.getFlag 2 == 1) s
  | 0xf, 0x2 => cpu.jmp (s.getFlag 7 == 0) s
  | 0xf, 0xa => cpu.jmp (s.getFlag 7 == 1) s
  | 0xc, 0x9 | 0xd, 0x9 => cpu.ret true s
  | 0xc, 0x0 => cpu.ret (s.getFlag 6 == 0) s
  | 0xc, 0x8 => cpu.ret (s.getFlag 6 == 1) s
  | 0xd, 0x0 => cpu.ret (s.getFlag 0 == 0) s
  | 0xd, 0x8 => cpu.ret (s.getFlag 0 == 1) s
  | 0xe, 0x0 => cpu.ret (s.getFlag 2 == 0) s
  | 0xe, 0x8 => cpu.ret (s.getFlag 2 == 1) s
  | 0xf, 0x0 => cpu.ret (s.getFlag 7 == 0) s
  | 0xf, 0x8 => cpu.ret (s.getFlag 7 == 1) s
  | 0xc, 0xd | 0xd, 0xd | 0xe, 0xd | 0xf, 0xd => cpu.call true s
  | 0xc, 0x4 => cpu.call (s.getFlag 6 == 0) s
  | 0xc, 0xc => cpu.call (s.getFlag 6 == 1) s
  | 0xd, 0x4 => cpu.call (s.getFlag 0 == 0) s
  | 0xd, 0xc => cpu.call (s.getFlag 0 == 1) s
  | 0xe, 0x4 => cpu.call (s.getFlag 2 == 0) s
  | 0xe, 0xc => cpu.call (s.getFlag 2 == 1) s
  | 0xf, 0x4 => cpu.call (s.getFlag 7 == 0) s
  | 0xf, 0xc => cpu.call (s.getFlag 7 == 1) s
  | _, _ => s

/-- cpu::interrupt: always latches — `interruptsEnabled = false;
interruptPending = true; interruptVector = instr` — with no guard on
`interruptsEnabled` (the header comment promises one). -/
def cpu.interrupt (instr : Nat) (s : cpu) : cpu :=
  { s with interruptsEnabled := false, interruptPending := true,
           interruptVector := instr % 256 }

/-- cpu::step: if an interrupt is pending, exec the latched vector (without
checking `interruptsEnabled`) and clear pending/halted; otherwise, when not
halted, fetch the byte at PC (advancing PC) and exec it. -/
def cpu.step (s : cpu) : cpu :=
  if s.interruptPending then
    { cpu.exec (s.interruptVector % 256) s with interruptPending := false, halted := false }
  else if s.halted then s
  else cpu.exec (readRam s.ram s.pc) { s with pc := (s.pc + 1) % 65536 }

/-- Construction of a repository `cpu` object: every instance in this
repository has static storage duration, so the members are zero-initialized,
then the in-class initializers run (`SP = 0`, `PC = 0`,
`interruptsEnabled = false`, `interruptPending = false`) and the constructor
body executes `setFlag(flag(1), true)`. -/
def cpu.construct (pin ram0 : Nat → Nat) : cpu :=
  cpu.setFlag 1 true
    { a := 0, f := 0, b := 0, c := 0, d := 0, e := 0, h := 0, l := 0,
      sp := 0, pc := 0, ram := ram0, portIn := pin,
      interruptsEnabled := false, interruptPending := false,
      interruptVector := 0, halted := false }

/-- Iterate `cpu.step`. -/
def cpu.runSteps : Nat → cpu → cpu
  | 0, s => s
  | n + 1, s => cpu.runSteps n (cpu.step s)

/-- A RAM image holding the given program bytes from address 0 and zero
elsewhere. -/
def progRam (bs : List Nat) : Nat → Nat := fun addr => bs.getD addr 0

/-- The all-zero function, used for empty RAM and for the port-input stub
of the drivers (which return 0). -/
def zeroFn : Nat → Nat := fun _ => 0

/-- RAM for the C1 check: `JNZ 0x1234` at address 0. -/
def c1ramJ : Nat → Nat := progRam [0xC2, 0x34, 0x12]

/-- RAM for the C1 check: `CNZ 0x1234` at address 0. -/
def c1ramC : Nat → Nat := progRam [0xC4, 0x34, 0x12]

/-- A freshly constructed cpu with the zero flag set (F = 0x42), about to
execute a conditional jump whose condition is false. -/
def c1stateJ : cpu := { cpu.construct zeroFn c1ramJ with f := 0x42 }

/-- A freshly constructed cpu with the zero flag set (F = 0x42), about to
execute a conditional call whose condition is false. -/
def c1stateC : cpu := { cpu.construct zeroFn c1ramC with f := 0x42 }

/-- A freshly constructed cpu (interrupts disabled) on which
`interrupt(0x3C)` (`INR A` as vector) has just been called. -/
def c2state : cpu := cpu.interrupt 0x3C (cpu.construct zeroFn zeroFn)

/-- RAM for the C3 scenario:
`LXI SP, 0x1000; LXI H, 0xBEEF; PUSH H; POP D`. -/
def c3ram : Nat → Nat := progRam [0x31, 0x00, 0x10, 0x21, 0xEF, 0xBE, 0xE5, 0xD1]

/-- State for the C4 check: A = 0, carry flag set, B = 0xFF (ADC B operand). -/
def c4state1 : cpu := { cpu.construct zeroFn zeroFn with b := 0xFF, f := 0x03 }

/-- State for the C4 check: A = 0, carry flag set, B = 0x0F (ADC B operand). -/
def c4state2 : cpu := { cpu.construct zeroFn zeroFn with b := 0x0F, f := 0x03 }

/-- State for the C5 check: A = 5, B = 0, about to execute CMP B. -/
def c5state : cpu := { cpu.construct zeroFn zeroFn with a := 5 }

/-- State for the C6 check: B = 5, about to execute DCR B. -/
def c6state : cpu := { cpu.construct zeroFn zeroFn with b := 5 }

/-- State for the C7 check: A = 0, carry flag set, about to execute RAL. -/
def c7state : cpu := { cpu.construct zeroFn zeroFn with a := 0, f := 0x03 }

/-- RAM for the C8 witness: `LXI SP, 0x0004; POP PSW` with 0xFF 0xFF on the
stack, so that POP PSW pops an arbitrary all-ones flag word. -/
def c8ram : Nat → Nat := progRam [0x31, 0x04, 0x00, 0xF1, 0xFF, 0xFF]

/-- RAM for the C10 witness: address operand 0x0005 at addresses 0..1, and
the bytes 0xAB 0xCD at addresses 5..6. -/
def c10ram : Nat → Nat := progRam [0x05, 0x00, 0x00, 0x00, 0x00, 0xAB, 0xCD]

/-- State for the C10 witness. -/
def c10state : cpu := cpu.construct zeroFn c10ram

/-- The always-0-and-always-1 flag bits tracked through every instruction:
the flag byte is a uint8 with bits 5 and 3 clear and bit 1 set. -/
def flagsOK (F : Nat) : Prop := F < 256 ∧ F &&& 40 = 0 ∧ F &&& 2 = 2

/-- Setting or clearing the carry bit (position 0) preserves the fixed-bit
layout, checked over all byte values. -/
theorem set0_aux : ∀ F < 256, F &&& 40 = 0 → F &&& 2 = 2 →
    (setFlagF 0 true F < 256 ∧ setFlagF 0 true F &&& 40 = 0 ∧ setFlagF 0 true F &&& 2 = 2) ∧
    (setFlagF 0 false F < 256 ∧ setFlagF 0 false F &&& 40 = 0 ∧ setFlagF 0 false F &&& 2 = 2) := by
  decide

/-- Bit 2 (parity) version of `set0_aux`. -/
theorem set2_aux : ∀ F < 256, F &&& 40 = 0 → F &&& 2 = 2 →
    (setFlagF 2 true F < 256 ∧ setFlagF 2 true F &&& 40 = 0 ∧ setFlagF 2 true F &&& 2 = 2) ∧
    (setFlagF 2 false F < 256 ∧ setFlagF 2 false F &&& 40 = 0 ∧ setFlagF 2 false F &&& 2 = 2) := by
  decide

/-- Bit 4 (aux-carry) version of `set0_aux`. -/
theorem set4_aux : ∀ F < 256, F &&& 40 = 0 → F &&& 2 = 2 →
    (setFlagF 4 true F < 256 ∧ setFlagF 4 true F &&& 40 = 0 ∧ setFlagF 4 true F &&& 2 = 2) ∧
    (setFlagF 4 false F < 256 ∧ setFlagF 4 false F &&& 40 = 0 ∧ setFlagF 4 false F &&& 2 = 2) := by
  decide

/-- Bit 6 (zero) version of `set0_aux`. -/
theorem set6_aux : ∀ F < 256, F &&& 40 = 0 → F &&& 2 = 2 →
    (setFlagF 6 true F < 256 ∧ setFlagF 6 true F &&& 40 = 0 ∧ setFlagF 6 true F &&& 2 = 2) ∧
    (setFlagF 6 false F < 256 ∧ setFlagF 6 false F &&& 40 = 0 ∧ setFlagF 6 false F &&& 2 = 2) := by
  decide

/-- Bit 7 (sign) version of `set0_aux`. -/
theorem set7_aux : ∀ F < 256, F &&& 40 = 0 → F &&& 2 = 2 →
    (setFlagF 7 true F < 256 ∧ setFlagF 7 true F &&& 40 = 0 ∧ setFlagF 7 true F &&& 2 = 2) ∧
    (setFlagF 7 false F < 256 ∧ setFlagF 7 false F &&& 40 = 0 ∧ setFlagF 7 false F &&& 2 = 2) := by
  decide

/-- The pop fix-up forces the fixed-bit layout on any byte. -/
theorem fix_aux : ∀ F < 256,
    fixFlags F < 256 ∧ fixFlags F &&& 40 = 0 ∧ fixFlags F &&& 2 = 2 := by
  decide

theorem flagsOK_set0 (b : Bool) (F : Nat) (h : flagsOK F) : flagsOK (setFlagF 0 b F) := by
  obtain ⟨h1, h2, h3⟩ := h
  cases b
  · exact (set0_aux F h1 h2 h3).2
  · exact (set0_aux F h1 h2 h3).1

theorem flagsOK_set2 (b : Bool) (F : Nat) (h : flagsOK F) : flagsOK (setFlagF 2 b F) := by
  obtain ⟨h1, h2, h3⟩ := h
  cases b
  · exact (set2_aux F h1 h2 h3).2
  · exact (set2_aux F h1 h2 h3).1

theorem flagsOK_set4 (b : Bool) (F : Nat) (h : flagsOK F) : flagsOK (setFlagF 4 b F) := by
  obtain ⟨h1, h2, h3⟩ := h
  cases b
  · exact (set4_aux F h1 h2 h3).2
  · exact (set4_aux F h1 h2 h3).1

theorem flagsOK_set6 (b : Bool) (F : Nat) (h : flagsOK F) : flagsOK (setFlagF 6 b F) := by
  obtain ⟨h1, h2, h3⟩ := h
  cases b
  · exact (set6_aux F h1 h2 h3).2
  · exact (set6_aux F h1 h2 h3).1

theorem flagsOK_set7 (b : Bool) (F : Nat) (h : flagsOK F) : flagsOK (setFlagF 7 b F) := by
  obtain ⟨h1, h2, h3⟩ := h
  cases b
  · exact (set7_aux F h1 h2 h3).2
  · exact (set7_aux F h1 h2 h3).1

theorem flagsOK_fix (F : Nat) (h1 : F < 256) : flagsOK (fixFlags F) :=
  fix_aux F h1

theorem flagsOK_fixMod (v : Nat) : flagsOK (fixFlags (v % 256)) :=
  flagsOK_fix (v % 256) (Nat.mod_lt v (by norm_num))

theorem flagsOK_updateFlags (r : Nat) (s : cpu) (h : flagsOK s.f) :
    flagsOK (cpu.updateFlags r s).f :=
  flagsOK_set2 _ _ (flagsOK_set6 _ _ (flagsOK_set7 _ _ h))

theorem flagsOK_add (r8 : Nat) (wc : Bool) (s : cpu) (h : flagsOK s.f) :
    flagsOK (cpu.add r8 wc s).f :=
  flagsOK_set2 _ _ (flagsOK_set6 _ _ (flagsOK_set7 _ _ (flagsOK_set4 _ _ (flagsOK_set0 _ _ h))))

theorem flagsOK_sub (r8 : Nat) (wb : Bool) (s : cpu) (h : flagsOK s.f) :
    flagsOK (cpu.sub r8 wb s).f :=
  flagsOK_add (twosComp r8) wb s h

theorem flagsOK_cmp (r8 : Nat) (s : cpu) (h : flagsOK s.f) :
    flagsOK (cpu.cmp r8 s).f :=
  flagsOK_set0 _ _ (flagsOK_sub r8 false s h)

theorem flagsOK_logicAnd (r8 : Nat) (s : cpu) (h : flagsOK s.f) :
    flagsOK (cpu.logicAnd r8 s).f := by
  exact (flagsOK_set0 _ _ (flagsOK_updateFlags _ _ h) :
    flagsOK (setFlagF 0 false (cpu.updateFlags (s.a &&& r8) { s with a := s.a &&& r8 }).f))

theorem flagsOK_logicOr (r8 : Nat) (s : cpu) (h : flagsOK s.f) :
    flagsOK (cpu.logicOr r8 s).f := by
  exact (flagsOK_set0 _ _ (flagsOK_updateFlags _ _ h) :
    flagsOK (setFlagF 0 false (cpu.updateFlags (s.a ||| r8) { s with a := s.a ||| r8 }).f))

theorem flagsOK_logicXor (r8 : Nat) (s : cpu) (h : flagsOK s.f) :
    flagsOK (cpu.logicXor r8 s).f := by
  exact (flagsOK_set0 _ _ (flagsOK_updateFlags _ _ h) :
    flagsOK (setFlagF 0 false (cpu.updateFlags (s.a ^^^ r8) { s with a := s.a ^^^ r8 }).f))

theorem flagsOK_inrFlags (r : Nat) (s : cpu) (h : flagsOK s.f) :
    flagsOK (cpu.inrFlags r s).f :=
  flagsOK_set2 _ _ (flagsOK_set6 _ _ (flagsOK_set7 _ _ (flagsOK_set4 _ _ h)))

theorem flagsOK_dcrFlags (r : Nat) (s : cpu) (h : flagsOK s.f) :
    flagsOK (cpu.dcrFlags r s).f :=
  flagsOK_set2 _ _ (flagsOK_set6 _ _ (flagsOK_set7 _ _ (flagsOK_set4 _ _ h)))

theorem flagsOK_dad (r16 : Nat) (s : cpu) (h : flagsOK s.f) :
    flagsOK (cpu.dad r16 s).f :=
  flagsOK_set0 _ _ h

theorem flagsOK_jmp (c : Bool) (s : cpu) (h : flagsOK s.f) :
    flagsOK (cpu.jmp c s).f := by
  unfold cpu.jmp
  split
  · exact h
  · exact h

theorem flagsOK_call (c : Bool) (s : cpu) (h : flagsOK s.f) :
    flagsOK (cpu.call c s).f := by
  unfold cpu.call
  split
  · exact h
  · exact h

theorem flagsOK_ret (c : Bool) (s : cpu) (h : flagsOK s.f) :
    flagsOK (cpu.ret c s).f := by
  unfold cpu.ret
  split
  · exact flagsOK_fix _ h.1
  · exact h

theorem flagsOK_daa (s : cpu) (h : flagsOK s.f) : flagsOK (cpu.daa s).f := by
  unfold cpu.daa
  dsimp only
  split <;> split <;> refine flagsOK_updateFlags _ _ ?_ <;>
    first
    | exact h
    | exact (flagsOK_set4 _ _ h : flagsOK (setFlagF 4 true s.f))
    | exact (flagsOK_set0 _ _ h : flagsOK (setFlagF 0 true s.f))
    | exact (flagsOK_set0 _ _ (flagsOK_set4 _ _ h) :
        flagsOK (setFlagF 0 true (setFlagF 4 true s.f)))

theorem modByte_lt (v : Nat) : v % 256 < 256 := Nat.mod_lt _ (by norm_num)

theorem readRam_lt (m : Nat → Nat) (addr : Nat) : readRam m addr < 256 :=
  Nat.mod_lt _ (by norm_num)

theorem flagsOK_setFlag0 (b : Bool) (t : cpu) (hq : flagsOK t.f) :
    flagsOK (cpu.setFlag 0 b t).f := by
  show flagsOK (setFlagF 0 b t.f)
  exact flagsOK_set0 _ _ hq

set_option maxHeartbeats 1600000 in
/-- Every opcode preserves the fixed-bit flag layout: the only writes to F
go through `setFlag` on positions 7, 6, 4, 2, 0, or through the pop fix-up.
The opcode is a fetched byte, hence below 256; the bullets treat the 256
opcodes in increasing order. -/
theorem flagsOK_exec (instr : Nat) (hi : instr < 256) (s : cpu) (h : flagsOK s.f) :
    flagsOK (cpu.exec instr s).f := by
  interval_cases instr
  · exact h
  · exact h
  · exact h
  · exact h
  · exact flagsOK_inrFlags _ _ h
  · exact flagsOK_dcrFlags _ _ h
  · exact h
  · exact flagsOK_setFlag0 _ _ h
  · exact h
  · exact flagsOK_dad _ _ h
  · exact h
  · exact h
  · exact flagsOK_inrFlags _ _ h
  · exact flagsOK_dcrFlags _ _ h
  · exact h
  · exact flagsOK_setFlag0 _ _ h
  · exact h
  · exact h
  · exact h
  · exact h
  · exact flagsOK_inrFlags _ _ h
  · exact flagsOK_dcrFlags _ _ h
  · exact h
  · exact flagsOK_setFlag0 _ _ h
  · exact h
  · exact flagsOK_dad _ _ h
  · exact h
  · exact h
  · exact flagsOK_inrFlags _ _ h
  · exact flagsOK_dcrFlags _ _ h
  · exact h
  · exact flagsOK_setFlag0 _ _ h
  · exact h
  · exact h
  · exact h
  · exact h
  · exact flagsOK_inrFlags _ _ h
  · exact flagsOK_dcrFlags _ _ h
  · exact h
  · exact flagsOK_daa _ h
  · exact h
  · exact flagsOK_dad _ _ h
  · exact h
  · exact h
  · exact flagsOK_inrFlags _ _ h
  · exact flagsOK_dcrFlags _ _ h
  · exact h
  · exact h
  · exact h
  · exact h
  · exact h
  · exact h
  · exact flagsOK_inrFlags _ _ h
  · exact flagsOK_dcrFlags _ _ h
  · exact h
  · exact flagsOK_setFlag0 _ _ h
  · exact h
  · exact flagsOK_dad _ _ h
  · exact h
  · exact h
  · exact flagsOK_inrFlags _ _ h
  · exact flagsOK_dcrFlags _ _ h
  · exact h
  · exact flagsOK_setFlag0 _ _ h
  · exact h
  · exact h
  · exact h
  · exact h
  · exact h
  · exact h
  · exact h
  · exact h
  · exact h
  · exact h
  · exact h
  · exact h
  · exact h
  · exact h
  · exact h
  · exact h
  · exact h
  · exact h
  · exact h
  · exact h
  · exact h
  · exact h
  · exact h
  · exact h
  · exact h
  · exact h
  · exact h
  · exact h
  · exact h
  · exact h
  · exact h
  · exact h
  · exact h
  · exact h
  · exact h
  · exact h
  · exact h
  · exact h
  · exact h
  · exact h
  · exact h
  · exact h
  · exact h
  · exact h
  · exact h
  · exact h
  · exact h
  · exact h
  · exact h
  · exact h
  · exact h
  · exact h
  · exact h
  · exact h
  · exact h
  · exact h
  · exact h
  · exact h
  · exact h
  · exact h
  · exact h
  · exact h
  · exact h
  · exact h
  · exact flagsOK_add _ _ _ h
  · exact flagsOK_add _ _ _ h
  · exact flagsOK_add _ _ _ h
  · exact flagsOK_add _ _ _ h
  · exact flagsOK_add _ _ _ h
  · exact flagsOK_add _ _ _ h
  · exact flagsOK_add _ _ _ h
  · exact flagsOK_add _ _ _ h
  · exact flagsOK_add _ _ _ h
  · exact flagsOK_add _ _ _ h
  · exact flagsOK_add _ _ _ h
  · exact flagsOK_add _ _ _ h
  · exact flagsOK_add _ _ _ h
  · exact flagsOK_add _ _ _ h
  · exact flagsOK_add _ _ _ h
  · exact flagsOK_add _ _ _ h
  · exact flagsOK_sub _ _ _ h
  · exact flagsOK_sub _ _ _ h
  · exact flagsOK_sub _ _ _ h
  · exact flagsOK_sub _ _ _ h
  · exact flagsOK_sub _ _ _ h
  · exact flagsOK_sub _ _ _ h
  · exact flagsOK_sub _ _ _ h
  · exact flagsOK_sub _ _ _ h
  · exact flagsOK_sub _ _ _ h
  · exact flagsOK_sub _ _ _ h
  · exact flagsOK_sub _ _ _ h
  · exact flagsOK_sub _ _ _ h
  · exact flagsOK_sub _ _ _ h
  · exact flagsOK_sub _ _ _ h
  · exact flagsOK_sub _ _ _ h
  · exact flagsOK_sub _ _ _ h
  · exact flagsOK_logicAnd _ _ h
  · exact flagsOK_logicAnd _ _ h
  · exact flagsOK_logicAnd _ _ h
  · exact flagsOK_logicAnd _ _ h
  · exact flagsOK_logicAnd _ _ h
  · exact flagsOK_logicAnd _ _ h
  · exact flagsOK_logicAnd _ _ h
  · exact flagsOK_logicAnd _ _ h
  · exact flagsOK_logicXor _ _ h
  · exact flagsOK_logicXor _ _ h
  · exact flagsOK_logicXor _ _ h
  · exact flagsOK_logicXor _ _ h
  · exact flagsOK_logicXor _ _ h
  · exact flagsOK_logicXor _ _ h
  · exact flagsOK_logicXor _ _ h
  · exact flagsOK_logicXor _ _ h
  · exact flagsOK_logicOr _ _ h
  · exact flagsOK_logicOr _ _ h
  · exact flagsOK_logicOr _ _ h
  · exact flagsOK_logicOr _ _ h
  · exact flagsOK_logicOr _ _ h
  · exact flagsOK_logicOr _ _ h
  · exact flagsOK_logicOr _ _ h
  · exact flagsOK_logicOr _ _ h
  · exact flagsOK_cmp _ _ h
  · exact flagsOK_cmp _ _ h
  · exact flagsOK_cmp _ _ h
  · exact flagsOK_cmp _ _ h
  · exact flagsOK_cmp _ _ h
  · exact flagsOK_cmp _ _ h
  · exact flagsOK_cmp _ _ h
  · exact flagsOK_cmp _ _ h
  · exact flagsOK_ret _ _ h
  · exact flagsOK_fix _ h.1
  · exact flagsOK_jmp _ _ h
  · exact flagsOK_jmp _ _ h
  · exact flagsOK_call _ _ h
  · exact h
  · exact flagsOK_add _ _ _ h
  · exact h
  · exact flagsOK_ret _ _ h
  · exact flagsOK_ret _ _ h
  · exact flagsOK_jmp _ _ h
  · exact h
  · exact flagsOK_call _ _ h
  · exact flagsOK_call _ _ h
  · exact flagsOK_add _ _ _ h
  · exact h
  · exact flagsOK_ret _ _ h
  · exact flagsOK_fix _ h.1
  · exact flagsOK_jmp _ _ h
  · exact h
  · exact flagsOK_call _ _ h
  · exact h
  · exact flagsOK_sub _ _ _ h
  · exact h
  · exact flagsOK_ret _ _ h
  · exact flagsOK_ret _ _ h
  · exact flagsOK_jmp _ _ h
  · exact h
  · exact flagsOK_call _ _ h
  · exact flagsOK_call _ _ h
  · exact flagsOK_sub _ _ _ h
  · exact h
  · exact flagsOK_ret _ _ h
  · exact flagsOK_fix _ h.1
  · exact flagsOK_jmp _ _ h
  · exact h
  · exact flagsOK_call _ _ h
  · exact h
  · exact flagsOK_logicAnd _ _ h
  · exact h
  · exact flagsOK_ret _ _ h
  · exact h
  · exact flagsOK_jmp _ _ h
  · exact h
  · exact flagsOK_call _ _ h
  · exact flagsOK_call _ _ h
  · exact flagsOK_logicXor _ _ h
  · exact h
  · exact flagsOK_ret _ _ h
  · exact flagsOK_fixMod _
  · exact flagsOK_jmp _ _ h
  · exact h
  · exact flagsOK_call _ _ h
  · exact h
  · exact flagsOK_logicOr _ _ h
  · exact h
  · exact flagsOK_ret _ _ h
  · exact h
  · exact flagsOK_jmp _ _ h
  · exact h
  · exact flagsOK_call _ _ h
  · exact flagsOK_call _ _ h
  · exact flagsOK_cmp _ _ h
  · exact h

theorem flagsOK_step (s : cpu) (h : flagsOK s.f) : flagsOK (cpu.step s).f := by
  unfold cpu.step
  split
  · exact flagsOK_exec _ (modByte_lt _) _ h
  · split
    · exact h
    · exact flagsOK_exec _ (readRam_lt _ _) _ h

theorem flagsOK_runSteps (n : Nat) (s : cpu) (h : flagsOK s.f) :
    flagsOK (cpu.runSteps n s).f := by
  induction n generalizing s with
  | zero => exact h
  | succ k ih => exact ih _ (flagsOK_step _ h)

/-- C1: the specification claims that a conditional JMP or CALL fetches the
2-byte address operand even when the condition is false, so that PC ends at
the opcode address + 3.  The code's cpu::jmp and cpu::call only call get16
inside the taken branch: evaluated on a JNZ and a CNZ whose condition is
false (zero flag set), one step leaves PC = 1, not 3, with flags, SP and A
untouched. -/
theorem claim_c1_not_taken_jcc_ccc_skips_address_fetch :
    ((cpu.step c1stateJ).pc = 1 ∧ ¬ (cpu.step c1stateJ).pc = 3 ∧
      (cpu.step c1stateJ).f = c1stateJ.f ∧ (cpu.step c1stateJ).sp = 0 ∧
      (cpu.step c1stateJ).a = 0) ∧
    ((cpu.step c1stateC).pc = 1 ∧ ¬ (cpu.step c1stateC).pc = 3 ∧
      (cpu.step c1stateC).sp = 0) := by
  decide

/-- C2: the specification claims a latched interrupt is serviced only when
ime is true.  The code latches with interruptsEnabled forced false and
cpu::step never tests interruptsEnabled: one step after interrupt(0x3C) on
a fresh cpu (ime = false) executes the vector anyway — A becomes 1, the
pending bit clears, and PC stays 0 (the vector did not come from memory). -/
theorem claim_c2_interrupt_serviced_with_ime_false :
    c2state.interruptsEnabled = false ∧ c2state.interruptPending = true ∧
    (cpu.step c2state).a = 1 ∧ (cpu.step c2state).interruptPending = false ∧
    (cpu.step c2state).pc = 0 := by
  decide

/-- C3: running LXI SP,0x1000; LXI H,0xBEEF; PUSH H; POP D from reset gives
DE = 0xBEEF and SP = 0x1000 as the specification claims, but the pushed
bytes land big-endian: memory[0x0FFE] = 0xBE and memory[0x0FFF] = 0xEF,
the reverse of the little-endian [0xEF, 0xBE] the claim requires. -/
theorem claim_c3_push_stores_big_endian :
    cpu.DE (cpu.runSteps 4 (cpu.construct zeroFn c3ram)) = 0xBEEF ∧
    (cpu.runSteps 4 (cpu.construct zeroFn c3ram)).sp = 0x1000 ∧
    (cpu.runSteps 4 (cpu.construct zeroFn c3ram)).ram 0x0FFE = 0xBE ∧
    (cpu.runSteps 4 (cpu.construct zeroFn c3ram)).ram 0x0FFF = 0xEF ∧
    (cpu.runSteps 4 (cpu.construct zeroFn c3ram)).pc = 8 := by
  decide

/-- C4: the specification claims ADC folds the incoming carry into both the
carry and aux-carry computations.  The code wraps `added = v + cin` to a
uint8 and computes both flags from (A, added): with A = 0, carry set and
v = 0xFF the result wraps to 0 and the carry flag comes out 0 (the claim
requires 1); with v = 0x0F the sum's low nibble is 0 and the aux-carry flag
comes out 0 (the claim requires 1).  The accumulator results agree. -/
theorem claim_c4_adc_drops_carry_in :
    ((cpu.exec 0x88 c4state1).a = 0 ∧ (cpu.exec 0x88 c4state1).getFlag 0 = 0) ∧
    ((cpu.exec 0x88 c4state2).a = 0x10 ∧ (cpu.exec 0x88 c4state2).getFlag 4 = 0) := by
  decide

/-- C5: the specification claims CMP r sets C iff A < r, in particular
C = 0 when r = 0.  The code derives C by inverting the carry of
A + twosComp(r); twosComp(0) = 0 never carries, so CMP B with A = 5 and
B = 0 ends with the carry flag 1 instead of 0.  A is left unchanged and the
zero flag is correct. -/
theorem claim_c5_cmp_zero_sets_carry :
    (cpu.exec 0xb8 c5state).a = 5 ∧ (cpu.exec 0xb8 c5state).getFlag 0 = 1 ∧
    (cpu.exec 0xb8 c5state).getFlag 6 = 0 := by
  decide

/-- C6: the specification claims DCR sets AC iff the old low nibble is
nonzero (no borrow from bit 4).  The code sets AC iff the old low nibble is
zero: DCR B with B = 5 yields B = 4 but AC = 0 where the claim requires
AC = 1.  The carry flag is untouched as claimed. -/
theorem claim_c6_dcr_auxcarry_inverted :
    (cpu.exec 0x05 c6state).b = 4 ∧ (cpu.exec 0x05 c6state).getFlag 4 = 0 ∧
    (cpu.exec 0x05 c6state).getFlag 0 = 0 := by
  decide

/-- C7: the specification claims RAL rotates the old carry into bit 0
(A := (A << 1) | old_C).  The code only shifts left: with A = 0 and the
carry flag set, RAL leaves A = 0 where the claim requires A = 1; the new
carry (old bit 7 = 0) agrees. -/
theorem claim_c7_ral_drops_carry_into_bit0 :
    (cpu.exec 0x17 c7state).a = 0 ∧ (cpu.exec 0x17 c7state).getFlag 0 = 0 := by
  decide

/-- C8: in every state reachable from the reset state by step() calls — for
any RAM contents and port-input handler — the flag byte keeps bits 5 and 3
clear and bit 1 set, including after POP PSW of an arbitrary word. -/
theorem claim_c8_flag_fixed_bits (pin ram0 : Nat → Nat) (n : Nat) :
    (cpu.runSteps n (cpu.construct pin ram0)).f &&& 0b00101000 = 0 ∧
    (cpu.runSteps n (cpu.construct pin ram0)).f &&& 0b00000010 = 0b00000010 := by
  have h0 : flagsOK (cpu.construct pin ram0).f :=
    (⟨by decide, by decide, by decide⟩ : flagsOK (setFlagF 1 true 0))
  have hn := flagsOK_runSteps n _ h0
  exact ⟨hn.2.1, hn.2.2⟩

/-- C8 witness: two steps of LXI SP,0x0004; POP PSW with 0xFF 0xFF on the
stack (POP PSW of an all-ones word) keep the fixed flag bits. -/
theorem claim_c8_flag_fixed_bits_witness :
    (cpu.runSteps 2 (cpu.construct zeroFn c8ram)).f &&& 0b00101000 = 0 ∧
    (cpu.runSteps 2 (cpu.construct zeroFn c8ram)).f &&& 0b00000010 = 0b00000010 :=
  claim_c8_flag_fixed_bits zeroFn c8ram 2

/-- C9: immediately after construction (static storage: zero-initialized,
then the in-class initializers and the constructor body run) all eight
registers are 0 except F = 0x02, SP = PC = 0, and the interrupt-enable,
halted and interrupt-pending booleans are false. -/
theorem claim_c9_initial_state (pin ram0 : Nat → Nat) :
    (cpu.construct pin ram0).a = 0 ∧ (cpu.construct pin ram0).f = 0x02 ∧
    (cpu.construct pin ram0).b = 0 ∧ (cpu.construct pin ram0).c = 0 ∧
    (cpu.construct pin ram0).d = 0 ∧ (cpu.construct pin ram0).e = 0 ∧
    (cpu.construct pin ram0).h = 0 ∧ (cpu.construct pin ram0).l = 0 ∧
    (cpu.construct pin ram0).sp = 0 ∧ (cpu.construct pin ram0).pc = 0 ∧
    (cpu.construct pin ram0).interruptsEnabled = false ∧
    (cpu.construct pin ram0).halted = false ∧
    (cpu.construct pin ram0).interruptPending = false := by
  refine ⟨rfl, ?_, rfl, rfl, rfl, rfl, rfl, rfl, rfl, rfl, rfl, rfl, rfl⟩
  exact (by decide : setFlagF 1 true 0 = 2)

/-- C9 witness: the construction facts at the all-zero RAM and port stub. -/
theorem claim_c9_initial_state_witness :
    (cpu.construct zeroFn zeroFn).a = 0 ∧ (cpu.construct zeroFn zeroFn).f = 0x02 ∧
    (cpu.construct zeroFn zeroFn).b = 0 ∧ (cpu.construct zeroFn zeroFn).c = 0 ∧
    (cpu.construct zeroFn zeroFn).d = 0 ∧ (cpu.construct zeroFn zeroFn).e = 0 ∧
    (cpu.construct zeroFn zeroFn).h = 0 ∧ (cpu.construct zeroFn zeroFn).l = 0 ∧
    (cpu.construct zeroFn zeroFn).sp = 0 ∧ (cpu.construct zeroFn zeroFn).pc = 0 ∧
    (cpu.construct zeroFn zeroFn).interruptsEnabled = false ∧
    (cpu.construct zeroFn zeroFn).halted = false ∧
    (cpu.construct zeroFn zeroFn).interruptPending = false :=
  claim_c9_initial_state zeroFn zeroFn

/-- C10: in every state, opcode 0x2A (LHLD) assigns the HL pair the
zero-extended single byte at the fetched address (L becomes 0 and no memory
is read beyond that byte or written), and opcode 0x22 (SHLD) writes exactly
one byte — HL truncated to 8 bits, i.e. H mod 256 — at the fetched address,
leaving every other cell (in particular address + 1) unchanged. -/
theorem claim_c10_lhld_shld_one_byte (s : cpu) :
    (cpu.HL (cpu.exec 0x2a s) = readRam s.ram s.get16 ∧
     (cpu.exec 0x2a s).l = 0 ∧
     (∀ x, (cpu.exec 0x2a s).ram x = s.ram x)) ∧
    ((cpu.exec 0x22 s).ram s.get16 = s.h % 256 ∧
     (∀ x, ¬ x = s.get16 → (cpu.exec 0x22 s).ram x = s.ram x) ∧
     (cpu.exec 0x22 s).h = s.h ∧ (cpu.exec 0x22 s).l = s.l) := by
  have hv : readRam s.ram s.get16 < 256 := readRam_lt _ _
  refine ⟨⟨?_, ?_, ?_⟩, ?_, ?_, rfl, rfl⟩
  · show readRam s.ram s.get16 % 256 + 256 * (readRam s.ram s.get16 / 256 % 256) =
      readRam s.ram s.get16
    omega
  · show readRam s.ram s.get16 / 256 % 256 = 0
    omega
  · intro x
    rfl
  · show (if s.get16 = s.get16 then cpu.HL s % 256 else s.ram s.get16) = s.h % 256
    rw [if_pos rfl]
    show (s.h + 256 * s.l) % 256 = s.h % 256
    omega
  · intro x hx
    show (if x = s.get16 then cpu.HL s % 256 else s.ram x) = s.ram x
    rw [if_neg hx]

/-- C10 witness: with the address operand 0x0005 and RAM byte 0xAB at 5,
LHLD loads HL = 0x00AB and SHLD leaves the byte at 6 (address + 1) alone. -/
theorem claim_c10_lhld_shld_one_byte_witness :
    cpu.HL (cpu.exec 0x2a c10state) = 0xAB ∧
    (cpu.exec 0x22 c10state).ram 6 = c10state.ram 6 := by
  have h := claim_c10_lhld_shld_one_byte c10state
  constructor
  · rw [h.1.1]
    decide
  · exact h.2.2.1 6 (by decide)

end intel8080
